import Mathlib

/-!
Verification development for the Trust-Trade adaptive trading engine.

Shallow embedding of the risk, position-lifecycle, signal-composition,
circuit-breaker, exposure-limit, Kelly-sizing, RSI and backtest code,
with theorems settling the specification's claims about them.
JavaScript numbers are modelled as rationals (ℚ class); all claims here
concern ordering, arithmetic identities and control flow, which floats
and rationals agree on for the inputs in question.
-/

namespace TrustTrade

/-- Trade side: the source stores the strings 'buy' and 'sell' and always
branches on `side === 'buy'` with 'sell' as the other arm. -/
inductive Side where
  | buy
  | sell
deriving DecidableEq, Repr

/-- Result of `updateTrailingStop` in src/lib/risk-advanced.mjs:
`\x7b newStopLoss, trailingActivated, profitLocked \x7d`. -/
structure TrailingResult where
  newStopLoss : ℚ
  trailingActivated : Bool
  profitLocked : ℚ
deriving DecidableEq, Repr

/-- `updateTrailingStop(side, currentPrice, entryPrice, currentStopLoss,
trailingPercent)` from src/lib/risk-advanced.mjs (lines 49-90). -/
def updateTrailingStop (side : Side) (currentPrice entryPrice currentStopLoss
    trailingPercent : ℚ) : TrailingResult :=
  match side with
  | .buy =>
    let profitPercent := ((currentPrice - entryPrice) / entryPrice) * 100
    if profitPercent > 0 then
      let trailingStopPrice := currentPrice * (1 - trailingPercent / 100)
      if trailingStopPrice > currentStopLoss then
        { newStopLoss := trailingStopPrice
          trailingActivated := true
          profitLocked := ((trailingStopPrice - entryPrice) / entryPrice) * 100 }
      else
        { newStopLoss := currentStopLoss, trailingActivated := false, profitLocked := 0 }
    else
      { newStopLoss := currentStopLoss, trailingActivated := false, profitLocked := 0 }
  | .sell =>
    let profitPercent := ((entryPrice - currentPrice) / entryPrice) * 100
    if profitPercent > 0 then
      let trailingStopPrice := currentPrice * (1 + trailingPercent / 100)
      if trailingStopPrice < currentStopLoss then
        { newStopLoss := trailingStopPrice
          trailingActivated := true
          profitLocked := ((entryPrice - trailingStopPrice) / entryPrice) * 100 }
      else
        { newStopLoss := currentStopLoss, trailingActivated := false, profitLocked := 0 }
    else
      { newStopLoss := currentStopLoss, trailingActivated := false, profitLocked := 0 }

/-- `isStopLossHit(side, currentPrice, stopLossPrice)` from
src/lib/risk-advanced.mjs (lines 99-105). -/
def isStopLossHit (side : Side) (currentPrice stopLossPrice : ℚ) : Bool :=
  match side with
  | .buy => currentPrice ≤ stopLossPrice
  | .sell => currentPrice ≥ stopLossPrice

/-- `isTakeProfitHit(side, currentPrice, takeProfitPrice)` from
src/lib/risk-advanced.mjs (lines 114-120). -/
def isTakeProfitHit (side : Side) (currentPrice takeProfitPrice : ℚ) : Bool :=
  match side with
  | .buy => currentPrice ≥ takeProfitPrice
  | .sell => currentPrice ≤ takeProfitPrice

/-- One rung of the partial take-profit ladder, as produced by
`calculateMultipleTakeProfits` (risk-advanced.mjs):
`\x7b positionPercent, profitTarget, price \x7d`. -/
structure TPLevel where
  positionPercent : ℚ
  profitTarget : ℚ
  price : ℚ
deriving DecidableEq, Repr

/-- The mutable position record of the Order Manager (src/unnamed/part_005,
`createPosition`), restricted to the fields `updatePosition` reads or
writes. -/
structure Position where
  side : Side
  entryPrice : ℚ
  quantity : ℚ
  stopLossPrice : ℚ
  takeProfitPrice : ℚ
  trailingStopEnabled : Bool
  trailingStopPercent : ℚ
  trailingActivated : Bool
  multipleTakeProfits : List TPLevel
  takeProfitsHit : List ℕ
  highestPrice : ℚ
  lowestPrice : ℚ
  currentPrice : ℚ
  unrealizedPnl : ℚ
  unrealizedPnlPercent : ℚ
deriving DecidableEq, Repr

/-- The trigger part of `updatePosition`'s return value in
src/unnamed/part_005: either no trigger, or one of the three exit
actions ('stop-loss', 'take-profit', 'partial-take-profit' with the
1-based `level` and `percentToClose` fields). -/
inductive ExitTrigger where
  | stopLossHit
  | takeProfitHit
  | partialTP (level : ℕ) (percentToClose : ℚ)
  | noTrigger
deriving DecidableEq, Repr

/-- The `action` string of the returned trigger object ('stop-loss',
'take-profit', 'partial-take-profit'); `none` when `triggered` is false. -/
def ExitTrigger.actionName : ExitTrigger → Option String
  | .stopLossHit => some "stop-loss"
  | .takeProfitHit => some "take-profit"
  | .partialTP _ _ => some "partial-take-profit"
  | .noTrigger => none

/-- The ladder scan in `updatePosition` (part_005 lines 158-181): walk
`multipleTakeProfits` with its index, skip rungs whose index is already in
`takeProfitsHit`, return the first remaining rung whose price is touched. -/
def findLadderHit (side : Side) (price : ℚ) (hitList : List ℕ) :
    List TPLevel → ℕ → Option (ℕ × TPLevel)
  | [], _ => none
  | tp :: rest, idx =>
    if idx ∈ hitList then findLadderHit side price hitList rest (idx + 1)
    else if isTakeProfitHit side price tp.price then some (idx, tp)
    else findLadderHit side price hitList rest (idx + 1)

/-- First block of `updatePosition` (part_005 lines 87-101): store the
current price, update the high/low watermarks and the unrealized P&L. -/
def tickPosition (pos : Position) (currentPrice : ℚ) : Position :=
  { pos with
    currentPrice := currentPrice
    highestPrice := max pos.highestPrice currentPrice
    lowestPrice := min pos.lowestPrice currentPrice
    unrealizedPnl :=
      match pos.side with
      | .buy => (currentPrice - pos.entryPrice) * pos.quantity
      | .sell => (pos.entryPrice - currentPrice) * pos.quantity
    unrealizedPnlPercent :=
      match pos.side with
      | .buy => ((currentPrice - pos.entryPrice) / pos.entryPrice) * 100
      | .sell => ((pos.entryPrice - currentPrice) / pos.entryPrice) * 100 }

/-- Second block of `updatePosition` (part_005 lines 103-121): when trailing
is enabled and the just-computed unrealized P&L percent is positive, run
`updateTrailingStop` and, if it activated, store the new stop-loss and set
`trailingActivated`. -/
def trailPosition (pos : Position) (currentPrice : ℚ) : Position :=
  if pos.trailingStopEnabled ∧ pos.unrealizedPnlPercent > 0 then
    let tr := updateTrailingStop pos.side currentPrice pos.entryPrice
      pos.stopLossPrice pos.trailingStopPercent
    if tr.trailingActivated then
      { pos with stopLossPrice := tr.newStopLoss, trailingActivated := true }
    else pos
  else pos

/-- Third block of `updatePosition` (part_005 lines 123-186): check
stop-loss, then take-profit, then the partial take-profit ladder, the first
hit returning immediately; a ladder hit appends its index to
`takeProfitsHit` and the position stays in the active map. -/
def checkExitTriggers (pos : Position) (currentPrice : ℚ) : Position × ExitTrigger :=
  if isStopLossHit pos.side currentPrice pos.stopLossPrice then
    (pos, ExitTrigger.stopLossHit)
  else if isTakeProfitHit pos.side currentPrice pos.takeProfitPrice then
    (pos, ExitTrigger.takeProfitHit)
  else if pos.multipleTakeProfits.length > 0 then
    match findLadderHit pos.side currentPrice pos.takeProfitsHit pos.multipleTakeProfits 0 with
    | some (idx, tp) =>
      ({ pos with takeProfitsHit := pos.takeProfitsHit ++ [idx] },
        ExitTrigger.partialTP (idx + 1) tp.positionPercent)
    | none => (pos, ExitTrigger.noTrigger)
  else (pos, ExitTrigger.noTrigger)

/-- `updatePosition(positionId, currentPrice)` from src/unnamed/part_005
(lines 81-187), with the position passed explicitly instead of looked up in
the module-level `activePositions` map.  Mirrors the source order: update
watermarks and unrealized P&L, ratchet the trailing stop, then check the
exit triggers. -/
def updatePosition (pos : Position) (currentPrice : ℚ) : Position × ExitTrigger :=
  checkExitTriggers (trailPosition (tickPosition pos currentPrice) currentPrice) currentPrice

/-- Folding `updatePosition` over a sequence of price ticks, keeping only the
evolving position state (the monitor loop applies it once per tick). -/
def updatePositionSeq (pos : Position) (prices : List ℚ) : Position :=
  prices.foldl (fun p pr => (updatePosition p pr).1) pos

/-- A concrete long position used to instantiate the trailing-stop
theorem: entered at 100 with stop 98, take-profit 150, 1.5% trail. -/
def wPosBuy : Position :=
  { side := .buy, entryPrice := 100, quantity := 1, stopLossPrice := 98
    takeProfitPrice := 150, trailingStopEnabled := true
    trailingStopPercent := 3/2, trailingActivated := false
    multipleTakeProfits := [], takeProfitsHit := []
    highestPrice := 100, lowestPrice := 100, currentPrice := 100
    unrealizedPnl := 0, unrealizedPnlPercent := 0 }

/-- The module-level `circuitBreakerState` record of
src/lib/advanced-risk.mjs (lines 15-21).  Timestamps are milliseconds as
integers; `tripTime` is `none` for the source's `null`. -/
structure CircuitBreakerState where
  isTripped : Bool
  tripTime : Option ℤ
  consecutiveLosses : ℕ
  cooldownPeriod : ℤ
  maxConsecutiveLosses : ℕ
deriving DecidableEq, Repr

/-- The initial `circuitBreakerState` of advanced-risk.mjs: not tripped,
no trip time, zero losses, one-hour cooldown, threshold 3. -/
def circuitBreakerInit : CircuitBreakerState :=
  { isTripped := false, tripTime := none, consecutiveLosses := 0
    cooldownPeriod := 60 * 60 * 1000, maxConsecutiveLosses := 3 }

/-- Return value of `updateCircuitBreaker` (advanced-risk.mjs):
`cooldownMinutes` is present only on the tripping return. -/
structure CBUpdateResult where
  tripped : Bool
  consecutiveLosses : ℕ
  cooldownMinutes : Option ℚ
deriving DecidableEq, Repr

/-- `updateCircuitBreaker(tradePnL)` from src/lib/advanced-risk.mjs
(lines 72-96), with the mutable module state passed and returned
explicitly and `Date.now()` passed as `now`. -/
def updateCircuitBreaker (tradePnL : ℚ) (now : ℤ) (st : CircuitBreakerState) :
    CircuitBreakerState × CBUpdateResult :=
  if tradePnL < 0 then
    let st1 := { st with consecutiveLosses := st.consecutiveLosses + 1 }
    if st1.consecutiveLosses ≥ st1.maxConsecutiveLosses then
      let st2 := { st1 with isTripped := true, tripTime := some now }
      (st2, { tripped := true, consecutiveLosses := st2.consecutiveLosses
              cooldownMinutes := some ((st2.cooldownPeriod : ℚ) / 1000 / 60) })
    else
      (st1, { tripped := false, consecutiveLosses := st1.consecutiveLosses
              cooldownMinutes := none })
  else if tradePnL > 0 then
    let st1 := { st with consecutiveLosses := 0 }
    (st1, { tripped := false, consecutiveLosses := st1.consecutiveLosses
            cooldownMinutes := none })
  else
    (st, { tripped := false, consecutiveLosses := st.consecutiveLosses
           cooldownMinutes := none })

/-- Return value of `checkCircuitBreaker` (advanced-risk.mjs); the source
returns a different object shape per branch, so absent fields are `none`. -/
structure CBCheckResult where
  halted : Bool
  reason : Option String
  consecutiveLosses : Option ℕ
  remainingCooldown : Option ℤ
  tripTime : Option ℤ
deriving DecidableEq, Repr

/-- `checkCircuitBreaker()` from src/lib/advanced-risk.mjs (lines 34-67),
with the mutable module state passed and returned explicitly and
`Date.now()` passed as `now`.  The source's `now - tripTime` with a `null`
trip time coerces `null` to 0, hence `getD 0`. -/
def checkCircuitBreaker (now : ℤ) (st : CircuitBreakerState) :
    CircuitBreakerState × CBCheckResult :=
  if st.isTripped then
    let timeSinceTrip : ℤ := now - st.tripTime.getD 0
    if timeSinceTrip ≥ st.cooldownPeriod then
      ({ st with isTripped := false, tripTime := none, consecutiveLosses := 0 },
        { halted := false, reason := some "Circuit breaker reset after cooldown"
          consecutiveLosses := some 0, remainingCooldown := none, tripTime := none })
    else
      (st, { halted := true
             reason := some ("Circuit breaker tripped: " ++
               toString st.consecutiveLosses ++ " consecutive losses")
             consecutiveLosses := none
             remainingCooldown := some ⌈((st.cooldownPeriod - timeSinceTrip : ℤ) : ℚ)
               / 1000 / 60⌉
             tripTime := st.tripTime })
  else
    (st, { halted := false, reason := none
           consecutiveLosses := some st.consecutiveLosses
           remainingCooldown := none, tripTime := none })

/-- A breaker state two consecutive losses in, used to instantiate the
circuit-breaker theorem. -/
def cbTwoLosses : CircuitBreakerState :=
  { circuitBreakerInit with consecutiveLosses := 2 }

/-- A tripped breaker state (trip at time 0 with 3 losses), used to
instantiate the circuit-breaker theorem. -/
def cbTripped : CircuitBreakerState :=
  { circuitBreakerInit with
    isTripped := true
    tripTime := some 0
    consecutiveLosses := 3 }

/-- A concrete long position with a two-rung partial take-profit ladder
(rung 0 already hit) used to instantiate the exit-trigger theorem. -/
def wPosLadder : Position :=
  { side := .buy, entryPrice := 100, quantity := 1, stopLossPrice := 98
    takeProfitPrice := 120, trailingStopEnabled := false
    trailingStopPercent := 3/2, trailingActivated := false
    multipleTakeProfits := [⟨25, 5/2, 105⟩, ⟨25, 15/4, 110⟩]
    takeProfitsHit := [0]
    highestPrice := 100, lowestPrice := 100, currentPrice := 100
    unrealizedPnl := 0, unrealizedPnlPercent := 0 }

/-- One entry of the `signals` array built by `composeSignal`
(src/unnamed/part_006): a vote `\x7b signal, weight, source \x7d` with
`signal ∈ \x7b'buy', 'sell'\x7d` and `weight` = indicator weight times
interpretation strength. -/
structure WeightedSignal where
  signal : String
  weight : ℚ
  source : String
deriving DecidableEq, Repr

/-- The accumulator loop of `composeSignal` (part_006 lines 181-190):
fold the votes into the buy and sell scores. -/
def scoreSignals (signals : List WeightedSignal) : ℚ × ℚ :=
  signals.foldl
    (fun acc s =>
      if s.signal = "buy" then (acc.1 + s.weight, acc.2)
      else if s.signal = "sell" then (acc.1, acc.2 + s.weight)
      else acc)
    (0, 0)

/-- JavaScript `Math.round`: round half toward positive infinity. -/
def jsRound (q : ℚ) : ℤ := ⌊q + 1 / 2⌋

/-- The final-decision block of `composeSignal` (part_006 lines 192-207):
hold with confidence 0 when the total weight is 0, otherwise the strictly
higher accumulator wins with confidence = winner / total (a tie leaves the
initial 'hold' / 0).  The confidence here is the 0-1 value before the
`Math.round(confidence * 100)` applied at the return. -/
def composeDecision (buyScore sellScore : ℚ) : String × ℚ :=
  let totalWeight := buyScore + sellScore
  if totalWeight = 0 then ("hold", 0)
  else if buyScore > sellScore then ("buy", buyScore / totalWeight)
  else if sellScore > buyScore then ("sell", sellScore / totalWeight)
  else ("hold", 0)

/-- The `confidence` field of `composeSignal`'s return value:
`Math.round(confidence * 100)`. -/
def composeConfidencePct (buyScore sellScore : ℚ) : ℤ :=
  jsRound ((composeDecision buyScore sellScore).2 * 100)

/-- The successive differences `closes[i] - closes[i-1]` used by `rsi`
(src/lib/indicators-advanced.mjs). -/
def priceChanges : List ℚ → List ℚ
  | a :: b :: rest => (b - a) :: priceChanges (b :: rest)
  | _ => []

/-- The gain taken from one price change in the RSI smoothing loop:
`change > 0 ? change : 0`. -/
def gainOf (c : ℚ) : ℚ := if c > 0 then c else 0

/-- The loss taken from one price change in the RSI smoothing loop:
`change < 0 ? |change| : 0`. -/
def lossOf (c : ℚ) : ℚ := if c < 0 then |c| else 0

/-- Total gain over a window of changes (spec-level closed form of the
seeding loop's `gains` accumulator). -/
def gainsOf (cs : List ℚ) : ℚ := (cs.map gainOf).sum

/-- Total loss over a window of changes (spec-level closed form of the
seeding loop's `losses` accumulator, whose else-branch adds `|change|`,
counting a zero change as a zero loss). -/
def lossesOf (cs : List ℚ) : ℚ := (cs.map (fun c => if c > 0 then 0 else |c|)).sum

/-- The two-line RSI computation the source repeats at the seed and in the
smoothing loop: `rs = avgLoss === 0 ? 100 : avgGain / avgLoss` followed by
`100 - (100 / (1 + rs))`.  Note the zero-loss branch substitutes RS = 100,
not RSI = 100. -/
def rsiValue (avgGain avgLoss : ℚ) : ℚ :=
  let rs := if avgLoss = 0 then 100 else avgGain / avgLoss
  100 - 100 / (1 + rs)

/-- Successive Wilder-smoothed averages `(avg·(period-1)+new)/period`
along a list of new values. -/
def smoothSeq (period : ℕ) : ℚ → List ℚ → List ℚ
  | _, [] => []
  | avg, v :: rest =>
    let a := (avg * ((period : ℚ) - 1) + v) / (period : ℚ)
    a :: smoothSeq period a rest

/-- The RSI smoothing loop (indicators-advanced.mjs lines 41-51): for each
change past the seed, update both Wilder averages and emit the RSI value. -/
def rsiFrom (period : ℕ) : ℚ → ℚ → List ℚ → List ℚ
  | _, _, [] => []
  | avgGain, avgLoss, c :: rest =>
    let gain := if c > 0 then c else 0
    let loss := if c < 0 then |c| else 0
    let avgGain' := (avgGain * ((period : ℚ) - 1) + gain) / (period : ℚ)
    let avgLoss' := (avgLoss * ((period : ℚ) - 1) + loss) / (period : ℚ)
    rsiValue avgGain' avgLoss' :: rsiFrom period avgGain' avgLoss' rest

/-- `rsi(closes, period)` from src/lib/indicators-advanced.mjs (lines
13-54): all-null output when fewer than `period + 1` closes, otherwise
nulls up to index `period - 1`, the seeded value at index `period`, and
Wilder-smoothed values past it. -/
def rsi (closes : List ℚ) (period : ℕ) : List (Option ℚ) :=
  if closes.length < period + 1 then List.replicate closes.length none
  else
    let cs := priceChanges closes
    let gains := (cs.take period).foldl (fun g c => if c > 0 then g + c else g) 0
    let losses := (cs.take period).foldl (fun l c => if c > 0 then l else l + |c|) 0
    let avgGain := gains / (period : ℚ)
    let avgLoss := losses / (period : ℚ)
    List.replicate period none ++
      (rsiValue avgGain avgLoss :: rsiFrom period avgGain avgLoss (cs.drop period)).map some

/-- Zero-pad a digit string on the left to `f` characters. -/
def padZeros (s : String) (f : ℕ) : String :=
  String.mk (List.replicate (f - s.length) '0') ++ s

/-- JavaScript `Number.prototype.toFixed(f)` on exact rationals: per the
ECMAScript algorithm, strip the sign, pick the integer n closest to
`|q|·10^f` (ties toward the larger n), and render it with `f` digits after
the point. -/
def ratToFixed (f : ℕ) (q : ℚ) : String :=
  let sign := if q < 0 then "-" else ""
  let n : ℕ := (⌊|q| * (10 ^ f : ℚ) + 1 / 2⌋).toNat
  if f = 0 then sign ++ toString n
  else sign ++ toString (n / 10 ^ f) ++ "." ++ padZeros (toString (n % 10 ^ f)) f

/-- JavaScript number-to-string conversion, restricted to the
integer-valued rationals that the exposure caps produce (75, 25, ...). -/
def jsNumStr (q : ℚ) : String :=
  if q.den = 1 then toString q.num else toString q

/-- `parseFloat(x.toFixed(2))` as used by `calculatePortfolioExposure` to
round the total exposure to cents before `validatePortfolioLimits` adds
the proposed amount. -/
def round2 (q : ℚ) : ℚ := ((⌊q * 100 + 1 / 2⌋ : ℤ) : ℚ) / 100

/-- One open trade as consumed by `calculatePortfolioExposure`
(advanced-risk.mjs lines 189-244): only trades with `status === 'open'`
count toward exposure. -/
structure OpenTrade where
  symbol : String
  amount : ℚ
  status : String
deriving DecidableEq, Repr

/-- The `totalExposure` accumulation of `calculatePortfolioExposure`:
sum of the amounts of the open trades. -/
def sumOpenAmounts (trades : List OpenTrade) : ℚ :=
  trades.foldl (fun acc t => if t.status = "open" then acc + t.amount else acc) 0

/-- The `exposureBySymbol[symbol].exposure` accumulation of
`calculatePortfolioExposure`: sum of the open amounts for one symbol
(0 when the symbol has no open trades, matching `?.exposure || 0`). -/
def symbolExposure (symbol : String) (trades : List OpenTrade) : ℚ :=
  trades.foldl
    (fun acc t => if t.status = "open" ∧ t.symbol = symbol then acc + t.amount else acc) 0

/-- The module-level `portfolioLimits` fields read by
`validatePortfolioLimits`. -/
structure PortfolioLimits where
  maxExposurePerSymbol : ℚ
  maxTotalExposure : ℚ
deriving DecidableEq, Repr

/-- The default `portfolioLimits` of advanced-risk.mjs: 25% per symbol,
75% total. -/
def portfolioLimitsDefault : PortfolioLimits :=
  { maxExposurePerSymbol := 1/4, maxTotalExposure := 3/4 }

/-- The `\x7b ok, reason \x7d` part of `validatePortfolioLimits`'s return
value (`reason` is absent on success). -/
structure ValidationResult where
  ok : Bool
  reason : Option String
deriving DecidableEq, Repr

/-- `validatePortfolioLimits(symbol, amount, openTrades, portfolioValue)`
from src/lib/advanced-risk.mjs (lines 249-280), with the module-level
limits passed explicitly.  Pure: it reads the proposed trade and the open
trades and mutates nothing, so a rejection precedes any state change.
`currentExposure.totalExposure` is the cent-rounded total produced by
`calculatePortfolioExposure`; the per-symbol exposure is unrounded. -/
def validatePortfolioLimits (limits : PortfolioLimits) (symbol : String)
    (amount : ℚ) (openTrades : List OpenTrade) (portfolioValue : ℚ) :
    ValidationResult :=
  let newTotalExposure := round2 (sumOpenAmounts openTrades) + amount
  let newTotalPercent := newTotalExposure / portfolioValue
  let newSymbolExposure := symbolExposure symbol openTrades + amount
  let newSymbolPercent := newSymbolExposure / portfolioValue
  if newTotalPercent > limits.maxTotalExposure then
    { ok := false
      reason := some ("Would exceed max total exposure (" ++
        ratToFixed 1 (newTotalPercent * 100) ++ "% > " ++
        jsNumStr (limits.maxTotalExposure * 100) ++ "%)") }
  else if newSymbolPercent > limits.maxExposurePerSymbol then
    { ok := false
      reason := some ("Would exceed max exposure for " ++ symbol ++ " (" ++
        ratToFixed 1 (newSymbolPercent * 100) ++ "% > " ++
        jsNumStr (limits.maxExposurePerSymbol * 100) ++ "%)") }
  else { ok := true, reason := none }

/-- Open trades used to instantiate the exposure-limit theorem: 3000 open
on A and 2000 open on B against a 10000 portfolio. -/
def wTrades : List OpenTrade :=
  [{ symbol := "A", amount := 3000, status := "open" },
   { symbol := "B", amount := 2000, status := "open" }]

/-- The Kelly fraction as the spec words it: `(p·b − q)/b` with
`p = winRate/100`, `q = 1 − p`, `b = avgWin/|avgLoss|`, scaled by the
safety fraction and clamped to [0, 0.5]. -/
def kellyClampedFraction (winRate avgWin avgLoss kellyFraction : ℚ) : ℚ :=
  max 0 (min ((winRate / 100 * (avgWin / |avgLoss|) - (1 - winRate / 100)) /
    (avgWin / |avgLoss|) * kellyFraction) (1 / 2))

/-- The fields of `calculateKellyPositionSize`'s return value the claims
read; `message` appears only on the insufficient-data return and
`recommendation` only on the computed return. -/
structure KellyResult where
  kellyPercent : ℚ
  positionSize : ℚ
  message : Option String
  recommendation : Option String
deriving DecidableEq, Repr

/-- `calculateKellyPositionSize(winRate, avgWin, avgLoss, portfolioValue,
kellyFraction)` from src/lib/advanced-risk.mjs (lines 285-324).  The
`kellyPercent` and `positionSize` fields carry the source's
`parseFloat(x.toFixed(2))` rounding; the recommendation string tests and
renders the unrounded position size. -/
def calculateKellyPositionSize (winRate avgWin avgLoss portfolioValue
    kellyFraction : ℚ) : KellyResult :=
  if winRate = 0 ∨ avgWin = 0 ∨ avgLoss = 0 then
    { kellyPercent := 0, positionSize := 0
      message := some "Insufficient data for Kelly calculation"
      recommendation := none }
  else
    let p := winRate / 100
    let q := 1 - p
    let b := avgWin / |avgLoss|
    let kellyRaw := (p * b - q) / b
    let kellyScaled := kellyRaw * kellyFraction
    let kellyClamped := max 0 (min kellyScaled (1 / 2))
    let positionSize := portfolioValue * kellyClamped
    { kellyPercent := round2 (kellyClamped * 100)
      positionSize := round2 positionSize
      message := none
      recommendation := some (if positionSize > 0 then
          "Optimal position size: $" ++ ratToFixed 2 positionSize ++ " (" ++
            ratToFixed 1 (kellyClamped * 100) ++ "% of portfolio)"
        else "Current strategy not profitable - avoid trading") }

/-- A price candle as produced by the kraken adapter (`\x7b time, open,
high, low, close, volume \x7d`, milliseconds timestamp); `openP` stands for
the `open` field, a reserved word in Lean. -/
structure Candle where
  time : ℤ
  openP : ℚ
  high : ℚ
  low : ℚ
  close : ℚ
  volume : ℚ
deriving DecidableEq, Repr

/-- Return shape of `composeSignal` (part_006) restricted to the fields the
guard claim reads. -/
structure ComposeOut where
  signal : String
  confidence : ℚ
  reason : String
deriving DecidableEq, Repr

/-- The short-window guard of `composeSignal` (part_006 lines 39-46): fewer
than 100 candles returns hold / confidence 0 without touching an indicator.
The ≥ 100 path (the indicator pipeline) is abstracted as `main`; the guard
theorem quantifies over it, so it holds for the source's pipeline in
particular.  The function is total: no input throws. -/
def composeSignalG (main : List Candle → ComposeOut) (candles : List Candle) :
    ComposeOut :=
  if candles.length < 100 then
    { signal := "hold", confidence := 0, reason := "Insufficient data for analysis" }
  else main candles

/-- Return shape of `detectMarketRegime` (part_010) restricted to the
fields the guard claim reads. -/
structure RegimeOut where
  regime : String
  confidence : ℚ
  reason : String
  recommendedStrategy : String
deriving DecidableEq, Repr

/-- The short-window guard of `detectMarketRegime` (part_010 lines
959-967): fewer than 100 candles returns the choppy regime with
confidence 0 and the hold strategy.  The ≥ 100 path is abstracted as
`main`. -/
def detectMarketRegimeG (main : List Candle → RegimeOut) (candles : List Candle) :
    RegimeOut :=
  if candles.length < 100 then
    { regime := "choppy", confidence := 0
      reason := "Insufficient data for regime detection"
      recommendedStrategy := "hold" }
  else main candles

/-- Return shape of `analyzeWithOptimalStrategy` (strategy manager)
restricted to the fields the guard claim reads. -/
structure StrategyOut where
  signal : String
  confidence : ℚ
  reason : String
  strategy : String
deriving DecidableEq, Repr

/-- The short-window guard of `analyzeWithOptimalStrategy` (strategy
manager, lines 476-484 of src/lib/indicators-advanced.mjs's strategy-manager
section): fewer than 100 candles returns hold / confidence 0 / strategy
'none' before any regime check.  The ≥ 100 path is abstracted as `main`. -/
def analyzeWithOptimalStrategyG (main : List Candle → StrategyOut)
    (candles : List Candle) : StrategyOut :=
  if candles.length < 100 then
    { signal := "hold", confidence := 0
      reason := "Insufficient data for strategy analysis", strategy := "none" }
  else main candles

/-- `momentum(values, period)` from src/unnamed/part_001: percent change
versus the value `period` bars back, null-padded at the front (nulls
modelled as `none`). -/
def momentum (values : List ℚ) (period : ℕ) : List (Option ℚ) :=
  (List.range values.length).map (fun i =>
    if i < period then none
    else match values[i]?, values[i - period]? with
      | some vi, some vp => some ((vi - vp) / vp * 100)
      | _, _ => none)

/-- `getMomentumSignal(closes)` from the backtest engine
(src/unnamed/part_009 lines 243-255): buy above +0.5% momentum, sell below
−0.5%, hold otherwise or when there is not enough history. -/
def getMomentumSignal (closes : List ℚ) : String :=
  if closes.length < 20 then "hold"
  else
    match (momentum closes 14).getLast? with
    | some (some lastMom) =>
      if lastMom > 1/2 then "buy"
      else if lastMom < -(1/2) then "sell"
      else "hold"
    | _ => "hold"

/-- The configuration fields of `runBacktest` (src/unnamed/part_009) that
feed the trading loop. -/
structure BTConfig where
  initialCapital : ℚ
  positionSize : ℚ
  feeRate : ℚ
  slippage : ℚ
deriving DecidableEq, Repr

/-- The simulated open position of the backtest loop
(`\x7b side, entry_price, amount, quantity, entry_time, entry_index, fee \x7d`). -/
structure BTPosition where
  side : String
  entry_price : ℚ
  amount : ℚ
  quantity : ℚ
  entry_time : ℤ
  entry_index : ℕ
  fee : ℚ
deriving DecidableEq, Repr

/-- A closed simulated trade as recorded by `runBacktest`; `forceClosed`
models the presence of the `note: 'Force closed at end of backtest'`
field. -/
structure BTTrade where
  id : ℕ
  side : String
  entry_price : ℚ
  exit_price : ℚ
  quantity : ℚ
  amount : ℚ
  entry_time : ℤ
  exit_time : ℤ
  duration : ℤ
  pnl : ℚ
  pnl_percent : ℚ
  fee : ℚ
  forceClosed : Bool
deriving DecidableEq, Repr

/-- One point of the equity curve: `\x7b time, capital, trades \x7d`. -/
structure EquityPoint where
  time : ℤ
  capital : ℚ
  trades : ℕ
deriving DecidableEq, Repr

/-- The mutable state of the backtest loop. -/
structure BTState where
  trades : List BTTrade
  capital : ℚ
  position : Option BTPosition
  equityCurve : List EquityPoint
deriving DecidableEq, Repr

/-- The candle loop of `runBacktest` (part_009 lines 58-126), processing
the candles from index 50 on: a buy signal with no open position and
sufficient capital opens a long at close + slippage and deducts size and
fee; a sell signal while long closes at close − slippage, credits the exit
value minus fee, records the trade and an equity-curve point.  `sig` is the
strategy's signal on the close prefix (`getStrategySignal` partially
applied to the strategy id). -/
def btLoop (cfg : BTConfig) (sig : List ℚ → String) (closes : List ℚ) :
    BTState → ℕ → List Candle → BTState
  | st, _, [] => st
  | st, i, candle :: rest =>
    let s := sig (closes.take (i + 1))
    let st' :=
      if s = "buy" ∧ st.position = none ∧ st.capital ≥ cfg.positionSize then
        let entryPrice := candle.close * (1 + cfg.slippage)
        let quantity := cfg.positionSize / entryPrice
        let fee := cfg.positionSize * cfg.feeRate
        let newPos : BTPosition :=
          { side := "buy"
            entry_price := entryPrice
            amount := cfg.positionSize
            quantity := quantity
            entry_time := candle.time
            entry_index := i
            fee := fee }
        { st with
          position := some newPos
          capital := st.capital - (cfg.positionSize + fee) }
      else
        match st.position with
        | some p =>
          if s = "sell" ∧ p.side = "buy" then
            let exitPrice := candle.close * (1 - cfg.slippage)
            let exitValue := p.quantity * exitPrice
            let fee := exitValue * cfg.feeRate
            let pnl := exitValue - p.amount - p.fee - fee
            let newCapital := st.capital + exitValue - fee
            let trade : BTTrade :=
              { id := st.trades.length + 1
                side := p.side
                entry_price := p.entry_price
                exit_price := exitPrice
                quantity := p.quantity
                amount := p.amount
                entry_time := p.entry_time
                exit_time := candle.time
                duration := candle.time - p.entry_time
                pnl := pnl
                pnl_percent := pnl / p.amount * 100
                fee := p.fee + fee
                forceClosed := false }
            { trades := st.trades ++ [trade]
              capital := newCapital
              position := none
              equityCurve := st.equityCurve ++
                [{ time := candle.time
                   capital := newCapital
                   trades := st.trades.length + 1 }] }
          else st
        | none => st
    btLoop cfg sig closes st' (i + 1) rest

/-- The force-close block of `runBacktest` (part_009 lines 129-160): any
position still open at the end of the range closes at the final candle with
the distinguishing note. -/
def btForceClose (cfg : BTConfig) (lastCandle : Candle) (st : BTState) : BTState :=
  match st.position with
  | none => st
  | some p =>
    let exitPrice := lastCandle.close * (1 - cfg.slippage)
    let exitValue := p.quantity * exitPrice
    let fee := exitValue * cfg.feeRate
    let pnl := exitValue - p.amount - p.fee - fee
    let trade : BTTrade :=
      { id := st.trades.length + 1
        side := p.side
        entry_price := p.entry_price
        exit_price := exitPrice
        quantity := p.quantity
        amount := p.amount
        entry_time := p.entry_time
        exit_time := lastCandle.time
        duration := lastCandle.time - p.entry_time
        pnl := pnl
        pnl_percent := pnl / p.amount * 100
        fee := p.fee + fee
        forceClosed := true }
    { trades := st.trades ++ [trade]
      capital := st.capital + exitValue - fee
      position := none
      equityCurve := st.equityCurve }

/-- The trading outputs of `runBacktest` plus the wall-clock `generatedAt`
field. -/
structure BTRun where
  trades : List BTTrade
  equityCurve : List EquityPoint
  finalCapital : ℚ
  generatedAt : ℤ
deriving DecidableEq, Repr

/-- The trading body of `runBacktest` (part_009 lines 48-160): initialize
the state with the starting equity point, run the candle loop from index
50, and force-close any open position at the final candle.  A pure
function of the signal function, the configuration and the candle data
only. -/
def runBacktestCore (sig : List ℚ → String) (cfg : BTConfig)
    (candles : List Candle) : BTState :=
  let closes := candles.map (·.close)
  let st0 : BTState :=
    { trades := []
      capital := cfg.initialCapital
      position := none
      equityCurve :=
        [{ time := ((candles.head?).map (·.time)).getD 0
           capital := cfg.initialCapital
           trades := 0 }] }
  let st1 := btLoop cfg sig closes st0 50 (candles.drop 50)
  match candles.getLast? with
  | some lastCandle => btForceClose cfg lastCandle st1
  | none => st1

/-- `runBacktest(config)` from src/unnamed/part_009 (lines 20-201), with
the candle fetch replaced by the candle list (the external collaborator's
response) and `Date.now()` passed as `now`, which feeds only the
`generatedAt` field.  `sig` abstracts
`getStrategySignal(strategy, closes, ...)` for the configured strategy id —
a pure function of the close prefix (e.g. `getMomentumSignal`).  The two
validations throw in the source; here they return `Except.error`. -/
def runBacktest (sig : List ℚ → String) (cfg : BTConfig)
    (candles : List Candle) (now : ℤ) : Except String BTRun :=
  if cfg.positionSize > cfg.initialCapital then
    .error "Position size cannot exceed initial capital"
  else if candles.length < 50 then
    .error "Insufficient historical data for backtesting (need at least 50 candles)"
  else
    .ok { trades := (runBacktestCore sig cfg candles).trades
          equityCurve := (runBacktestCore sig cfg candles).equityCurve
          finalCapital := (runBacktestCore sig cfg candles).capital
          generatedAt := now }

/-- A flat candle at price 100 used to instantiate the backtest theorem. -/
def wCandle : Candle :=
  { time := 0, openP := 100, high := 100, low := 100, close := 100, volume := 1 }

/-- The backtest configuration used to instantiate the backtest theorem. -/
def wBTConfig : BTConfig :=
  { initialCapital := 10000
    positionSize := 1000
    feeRate := 13/5000
    slippage := 1/1000 }

/-! ## Theorems -/

theorem updateTrailingStop_buy_mono (cp e s tp : ℚ) :
    s ≤ (updateTrailingStop .buy cp e s tp).newStopLoss := by
  unfold updateTrailingStop
  dsimp only
  split
  · split
    · next h => exact le_of_lt h
    · exact le_refl s
  · exact le_refl s

theorem updateTrailingStop_sell_mono (cp e s tp : ℚ) :
    (updateTrailingStop .sell cp e s tp).newStopLoss ≤ s := by
  unfold updateTrailingStop
  dsimp only
  split
  · split
    · next h => exact le_of_lt h
    · exact le_refl s
  · exact le_refl s

theorem updateTrailingStop_buy_keep (cp e s tp : ℚ)
    (h : cp * (1 - tp / 100) ≤ s) :
    updateTrailingStop .buy cp e s tp = ⟨s, false, 0⟩ := by
  unfold updateTrailingStop
  dsimp only
  split
  · rw [if_neg (not_lt.mpr h)]
  · rfl

theorem updateTrailingStop_sell_keep (cp e s tp : ℚ)
    (h : s ≤ cp * (1 + tp / 100)) :
    updateTrailingStop .sell cp e s tp = ⟨s, false, 0⟩ := by
  unfold updateTrailingStop
  dsimp only
  split
  · rw [if_neg (not_lt.mpr h)]
  · rfl

theorem tickPosition_side (pos : Position) (p : ℚ) :
    (tickPosition pos p).side = pos.side := rfl

theorem tickPosition_stopLossPrice (pos : Position) (p : ℚ) :
    (tickPosition pos p).stopLossPrice = pos.stopLossPrice := rfl

theorem tickPosition_trailingStopPercent (pos : Position) (p : ℚ) :
    (tickPosition pos p).trailingStopPercent = pos.trailingStopPercent := rfl

theorem trailPosition_side (pos : Position) (p : ℚ) :
    (trailPosition pos p).side = pos.side := by
  unfold trailPosition
  dsimp only
  split
  · split <;> rfl
  · rfl

theorem trailPosition_stop_buy (pos : Position) (p : ℚ) (h : pos.side = .buy) :
    pos.stopLossPrice ≤ (trailPosition pos p).stopLossPrice := by
  unfold trailPosition
  dsimp only
  split
  · split
    · dsimp only
      rw [h]
      exact updateTrailingStop_buy_mono p pos.entryPrice pos.stopLossPrice
        pos.trailingStopPercent
    · exact le_refl _
  · exact le_refl _

theorem trailPosition_stop_sell (pos : Position) (p : ℚ) (h : pos.side = .sell) :
    (trailPosition pos p).stopLossPrice ≤ pos.stopLossPrice := by
  unfold trailPosition
  dsimp only
  split
  · split
    · dsimp only
      rw [h]
      exact updateTrailingStop_sell_mono p pos.entryPrice pos.stopLossPrice
        pos.trailingStopPercent
    · exact le_refl _
  · exact le_refl _

theorem trailPosition_stop_keep_buy (pos : Position) (p : ℚ) (h : pos.side = .buy)
    (hc : p * (1 - pos.trailingStopPercent / 100) ≤ pos.stopLossPrice) :
    (trailPosition pos p).stopLossPrice = pos.stopLossPrice := by
  unfold trailPosition
  dsimp only
  rw [h, updateTrailingStop_buy_keep p pos.entryPrice pos.stopLossPrice
    pos.trailingStopPercent hc]
  split <;> rfl

theorem trailPosition_stop_keep_sell (pos : Position) (p : ℚ) (h : pos.side = .sell)
    (hc : pos.stopLossPrice ≤ p * (1 + pos.trailingStopPercent / 100)) :
    (trailPosition pos p).stopLossPrice = pos.stopLossPrice := by
  unfold trailPosition
  dsimp only
  rw [h, updateTrailingStop_sell_keep p pos.entryPrice pos.stopLossPrice
    pos.trailingStopPercent hc]
  split <;> rfl

theorem checkExitTriggers_fst_stopLossPrice (pos : Position) (p : ℚ) :
    ((checkExitTriggers pos p).1).stopLossPrice = pos.stopLossPrice := by
  unfold checkExitTriggers
  split
  · rfl
  · split
    · rfl
    · split
      · split <;> rfl
      · rfl

theorem checkExitTriggers_fst_side (pos : Position) (p : ℚ) :
    ((checkExitTriggers pos p).1).side = pos.side := by
  unfold checkExitTriggers
  split
  · rfl
  · split
    · rfl
    · split
      · split <;> rfl
      · rfl

theorem updatePosition_fst_side (pos : Position) (p : ℚ) :
    ((updatePosition pos p).1).side = pos.side := by
  unfold updatePosition
  rw [checkExitTriggers_fst_side, trailPosition_side, tickPosition_side]

theorem updatePosition_stop_buy (pos : Position) (p : ℚ) (h : pos.side = .buy) :
    pos.stopLossPrice ≤ ((updatePosition pos p).1).stopLossPrice := by
  unfold updatePosition
  rw [checkExitTriggers_fst_stopLossPrice]
  have := trailPosition_stop_buy (tickPosition pos p) p (by rw [tickPosition_side, h])
  rwa [tickPosition_stopLossPrice] at this

theorem updatePosition_stop_sell (pos : Position) (p : ℚ) (h : pos.side = .sell) :
    ((updatePosition pos p).1).stopLossPrice ≤ pos.stopLossPrice := by
  unfold updatePosition
  rw [checkExitTriggers_fst_stopLossPrice]
  have := trailPosition_stop_sell (tickPosition pos p) p (by rw [tickPosition_side, h])
  rwa [tickPosition_stopLossPrice] at this

theorem updatePositionSeq_stop_buy (pos : Position) (prices : List ℚ)
    (h : pos.side = .buy) :
    pos.stopLossPrice ≤ (updatePositionSeq pos prices).stopLossPrice := by
  induction prices generalizing pos with
  | nil => exact le_refl _
  | cons p rest ih =>
    refine le_trans (updatePosition_stop_buy pos p h) (ih _ ?_)
    rw [updatePosition_fst_side, h]

theorem updatePositionSeq_stop_sell (pos : Position) (prices : List ℚ)
    (h : pos.side = .sell) :
    (updatePositionSeq pos prices).stopLossPrice ≤ pos.stopLossPrice := by
  induction prices generalizing pos with
  | nil => exact le_refl _
  | cons p rest ih =>
    refine le_trans (ih _ ?_) (updatePosition_stop_sell pos p h)
    rw [updatePosition_fst_side, h]

/-- C1: for any open position and any sequence of price updates, the stored
stop-loss is monotone in the profit-favorable direction — a long ('buy')
position's stop never decreases and a short ('sell') position's stop never
increases — and a single update whose trailing candidate
(`price·(1∓trail%/100)`) would loosen the stop leaves the stored stop-loss
unchanged. -/
theorem trailing_stop_monotonic (pos : Position) (prices : List ℚ) (price : ℚ) :
    (pos.side = Side.buy →
      pos.stopLossPrice ≤ (updatePositionSeq pos prices).stopLossPrice) ∧
    (pos.side = Side.sell →
      (updatePositionSeq pos prices).stopLossPrice ≤ pos.stopLossPrice) ∧
    (pos.side = Side.buy →
      price * (1 - pos.trailingStopPercent / 100) ≤ pos.stopLossPrice →
      ((updatePosition pos price).1).stopLossPrice = pos.stopLossPrice) ∧
    (pos.side = Side.sell →
      pos.stopLossPrice ≤ price * (1 + pos.trailingStopPercent / 100) →
      ((updatePosition pos price).1).stopLossPrice = pos.stopLossPrice) := by
  refine ⟨fun h => updatePositionSeq_stop_buy pos prices h,
    fun h => updatePositionSeq_stop_sell pos prices h, fun h hc => ?_, fun h hc => ?_⟩
  · unfold updatePosition
    rw [checkExitTriggers_fst_stopLossPrice]
    have := trailPosition_stop_keep_buy (tickPosition pos price) price
      (by rw [tickPosition_side, h]) (by rwa [tickPosition_trailingStopPercent,
        tickPosition_stopLossPrice])
    rwa [tickPosition_stopLossPrice] at this
  · unfold updatePosition
    rw [checkExitTriggers_fst_stopLossPrice]
    have := trailPosition_stop_keep_sell (tickPosition pos price) price
      (by rw [tickPosition_side, h]) (by rwa [tickPosition_trailingStopPercent,
        tickPosition_stopLossPrice])
    rwa [tickPosition_stopLossPrice] at this

/-- Concrete instantiation of the trailing-stop monotonicity theorem: a long
position entered at 100 with stop 98, three ticks 101, 103, 102, and a tick
at 99 whose candidate 99·0.985 = 97.515 would loosen the stop. -/
theorem trailing_stop_monotonic_witness :
    wPosBuy.side = Side.buy ∧
    wPosBuy.stopLossPrice ≤ (updatePositionSeq wPosBuy [101, 103, 102]).stopLossPrice ∧
    (99 : ℚ) * (1 - wPosBuy.trailingStopPercent / 100) ≤ wPosBuy.stopLossPrice ∧
    ((updatePosition wPosBuy 99).1).stopLossPrice = wPosBuy.stopLossPrice :=
  ⟨rfl, (trailing_stop_monotonic wPosBuy [101, 103, 102] 99).1 rfl,
    by norm_num [wPosBuy],
    (trailing_stop_monotonic wPosBuy [101, 103, 102] 99).2.2.1 rfl (by norm_num [wPosBuy])⟩

/-- C2: every losing close increments the consecutive-loss counter and every
winning close resets it to 0; when the incremented counter reaches the
threshold the breaker trips (recording the trip time); while tripped and
strictly before the cooldown has elapsed `checkCircuitBreaker` reports
halted with the circuit-breaker reason string; once the cooldown has
elapsed it self-resets (halted false, counter 0).  The defaults are
threshold 3 and a 60-minute (3 600 000 ms) cooldown. -/
theorem circuit_breaker_state_machine (st : CircuitBreakerState) (pnl : ℚ) (now : ℤ) :
    (pnl < 0 →
      ((updateCircuitBreaker pnl now st).1).consecutiveLosses = st.consecutiveLosses + 1) ∧
    (pnl > 0 →
      ((updateCircuitBreaker pnl now st).1).consecutiveLosses = 0) ∧
    (pnl < 0 → st.consecutiveLosses + 1 ≥ st.maxConsecutiveLosses →
      ((updateCircuitBreaker pnl now st).1).isTripped = true ∧
      ((updateCircuitBreaker pnl now st).1).tripTime = some now ∧
      ((updateCircuitBreaker pnl now st).2).tripped = true) ∧
    (st.isTripped = true → now - st.tripTime.getD 0 < st.cooldownPeriod →
      ((checkCircuitBreaker now st).2).halted = true ∧
      ((checkCircuitBreaker now st).2).reason =
        some ("Circuit breaker tripped: " ++ toString st.consecutiveLosses ++
          " consecutive losses")) ∧
    (st.isTripped = true → now - st.tripTime.getD 0 ≥ st.cooldownPeriod →
      ((checkCircuitBreaker now st).2).halted = false ∧
      ((checkCircuitBreaker now st).1).isTripped = false ∧
      ((checkCircuitBreaker now st).1).consecutiveLosses = 0) ∧
    circuitBreakerInit.maxConsecutiveLosses = 3 ∧
    circuitBreakerInit.cooldownPeriod = 60 * 60 * 1000 := by
  refine ⟨fun h => ?_, fun h => ?_, fun h hth => ?_, fun h hlt => ?_, fun h hge => ?_,
    rfl, rfl⟩
  · unfold updateCircuitBreaker
    rw [if_pos h]
    dsimp only
    split <;> rfl
  · unfold updateCircuitBreaker
    rw [if_neg (asymm h), if_pos h]
  · unfold updateCircuitBreaker
    rw [if_pos h]
    dsimp only
    rw [if_pos hth]
    exact ⟨rfl, rfl, rfl⟩
  · unfold checkCircuitBreaker
    rw [if_pos h]
    dsimp only
    rw [if_neg (not_le.mpr hlt)]
    exact ⟨rfl, rfl⟩
  · unfold checkCircuitBreaker
    rw [if_pos h]
    dsimp only
    rw [if_pos hge]
    exact ⟨rfl, rfl, rfl⟩

/-- Concrete instantiation of the circuit-breaker theorem: a loss from the
initial state increments the counter, a win from two losses resets it, a
third loss trips the breaker, a check 1 000 ms after the trip is halted,
and a check exactly one hour after the trip self-resets. -/
theorem circuit_breaker_state_machine_witness :
    ((updateCircuitBreaker (-5) 17 circuitBreakerInit).1).consecutiveLosses =
      circuitBreakerInit.consecutiveLosses + 1 ∧
    ((updateCircuitBreaker 7 17 cbTwoLosses).1).consecutiveLosses = 0 ∧
    ((updateCircuitBreaker (-5) 17 cbTwoLosses).1).isTripped = true ∧
    ((checkCircuitBreaker 1000 cbTripped).2).halted = true ∧
    ((checkCircuitBreaker 3600000 cbTripped).2).halted = false ∧
    ((checkCircuitBreaker 3600000 cbTripped).1).consecutiveLosses = 0 :=
  ⟨(circuit_breaker_state_machine circuitBreakerInit (-5) 17).1 (by norm_num),
    (circuit_breaker_state_machine cbTwoLosses 7 17).2.1 (by norm_num),
    ((circuit_breaker_state_machine cbTwoLosses (-5) 17).2.2.1 (by norm_num)
      (by decide)).1,
    ((circuit_breaker_state_machine cbTripped 0 1000).2.2.2.1 rfl (by decide)).1,
    ((circuit_breaker_state_machine cbTripped 0 3600000).2.2.2.2.1 rfl (by decide)).1,
    ((circuit_breaker_state_machine cbTripped 0 3600000).2.2.2.2.1 rfl (by decide)).2.2⟩

/-- C10: a closed trade with exactly zero P&L takes neither the loss branch
nor the win branch of `updateCircuitBreaker`: the breaker state is returned
completely unchanged and the result does not report a trip. -/
theorem zero_pnl_leaves_breaker_unchanged (st : CircuitBreakerState) (now : ℤ) :
    (updateCircuitBreaker 0 now st).1 = st ∧
    ((updateCircuitBreaker 0 now st).2).tripped = false ∧
    ((updateCircuitBreaker 0 now st).2).consecutiveLosses = st.consecutiveLosses := by
  unfold updateCircuitBreaker
  rw [if_neg (lt_irrefl (0 : ℚ)), if_neg (lt_irrefl (0 : ℚ))]
  exact ⟨rfl, rfl, rfl⟩

theorem findLadderHit_sound (side : Side) (price : ℚ) (hitList : List ℕ) :
    ∀ (levels : List TPLevel) (start idx : ℕ) (tp : TPLevel),
      findLadderHit side price hitList levels start = some (idx, tp) →
      start ≤ idx ∧ idx ∉ hitList ∧ levels[idx - start]? = some tp ∧
        isTakeProfitHit side price tp.price = true := by
  intro levels
  induction levels with
  | nil => intro start idx tp h; exact absurd h (by simp [findLadderHit])
  | cons tp0 rest ih =>
    intro start idx tp h
    unfold findLadderHit at h
    by_cases hmem : start ∈ hitList
    · rw [if_pos hmem] at h
      obtain ⟨h1, h2, h3, h4⟩ := ih (start + 1) idx tp h
      refine ⟨by omega, h2, ?_, h4⟩
      have : idx - start = (idx - (start + 1)) + 1 := by omega
      rw [this]
      simpa using h3
    · rw [if_neg hmem] at h
      by_cases hhit : isTakeProfitHit side price tp0.price = true
      · rw [if_pos hhit] at h
        obtain ⟨rfl, rfl⟩ : start = idx ∧ tp0 = tp := by
          have h' := Option.some.inj h
          exact ⟨congrArg Prod.fst h', congrArg Prod.snd h'⟩
        simp [hhit, hmem]
      · rw [if_neg hhit] at h
        obtain ⟨h1, h2, h3, h4⟩ := ih (start + 1) idx tp h
        refine ⟨by omega, h2, ?_, h4⟩
        have : idx - start = (idx - (start + 1)) + 1 := by omega
        rw [this]
        simpa using h3

theorem findLadderHit_none (side : Side) (price : ℚ) (hitList : List ℕ) :
    ∀ (levels : List TPLevel) (start : ℕ),
      findLadderHit side price hitList levels start = none →
      ∀ (k : ℕ) (tpk : TPLevel), levels[k]? = some tpk → (start + k) ∉ hitList →
        isTakeProfitHit side price tpk.price = false := by
  intro levels
  induction levels with
  | nil => intro start _ k tpk hk; simp at hk
  | cons tp0 rest ih =>
    intro start h k tpk hk hout
    unfold findLadderHit at h
    by_cases hmem : start ∈ hitList
    · rw [if_pos hmem] at h
      match k, hk with
      | 0, hk =>
        exact absurd hmem (by simpa using hout)
      | k + 1, hk =>
        have := ih (start + 1) h k tpk (by simpa using hk) (by
          have : start + 1 + k = start + (k + 1) := by omega
          rwa [this])
        exact this
    · rw [if_neg hmem] at h
      by_cases hhit : isTakeProfitHit side price tp0.price = true
      · rw [if_pos hhit] at h; exact absurd h (by simp)
      · rw [if_neg hhit] at h
        match k, hk with
        | 0, hk =>
          obtain rfl : tp0 = tpk := by simpa using hk
          simpa using hhit
        | k + 1, hk =>
          have := ih (start + 1) h k tpk (by simpa using hk) (by
            have : start + 1 + k = start + (k + 1) := by omega
            rwa [this])
          exact this

/-- C3: every price tick routes through `checkExitTriggers` on the
post-trailing position state, and the triggers fire in the fixed order
stop-loss, take-profit, partial ladder, the first hit ending the check:
a stop-loss hit returns action 'stop-loss' with the position unchanged, a
take-profit hit (with no stop-loss hit) returns action 'take-profit', a
touched un-hit ladder rung (with neither of the former) returns action
'partial-take-profit' closing exactly that rung's `positionPercent`,
appends only that rung's index to `takeProfitsHit` (all other position
fields unchanged, the position staying open in the active map), and if no
un-hit rung is touched no trigger fires. -/
theorem exit_trigger_order (q : Position) (price : ℚ) :
    (updatePosition q price =
      checkExitTriggers (trailPosition (tickPosition q price) price) price) ∧
    (isStopLossHit q.side price q.stopLossPrice = true →
      checkExitTriggers q price = (q, ExitTrigger.stopLossHit)) ∧
    (isStopLossHit q.side price q.stopLossPrice = false →
      isTakeProfitHit q.side price q.takeProfitPrice = true →
      checkExitTriggers q price = (q, ExitTrigger.takeProfitHit)) ∧
    (isStopLossHit q.side price q.stopLossPrice = false →
      isTakeProfitHit q.side price q.takeProfitPrice = false →
      ∀ (idx : ℕ) (tp : TPLevel),
        findLadderHit q.side price q.takeProfitsHit q.multipleTakeProfits 0 =
          some (idx, tp) →
        checkExitTriggers q price =
          ({ q with takeProfitsHit := q.takeProfitsHit ++ [idx] },
            ExitTrigger.partialTP (idx + 1) tp.positionPercent) ∧
        idx ∉ q.takeProfitsHit ∧ q.multipleTakeProfits[idx]? = some tp ∧
        isTakeProfitHit q.side price tp.price = true) ∧
    (isStopLossHit q.side price q.stopLossPrice = false →
      isTakeProfitHit q.side price q.takeProfitPrice = false →
      findLadderHit q.side price q.takeProfitsHit q.multipleTakeProfits 0 = none →
      checkExitTriggers q price = (q, ExitTrigger.noTrigger) ∧
      ∀ (k : ℕ) (tpk : TPLevel), q.multipleTakeProfits[k]? = some tpk →
        k ∉ q.takeProfitsHit → isTakeProfitHit q.side price tpk.price = false) ∧
    ExitTrigger.stopLossHit.actionName = some "stop-loss" ∧
    ExitTrigger.takeProfitHit.actionName = some "take-profit" ∧
    (∀ (l : ℕ) (p : ℚ), (ExitTrigger.partialTP l p).actionName =
      some "partial-take-profit") := by
  refine ⟨rfl, fun hsl => ?_, fun hsl htp => ?_, fun hsl htp idx tp hl => ?_,
    fun hsl htp hl => ?_, rfl, rfl, fun l p => rfl⟩
  · unfold checkExitTriggers
    rw [if_pos hsl]
  · unfold checkExitTriggers
    rw [if_neg (by simp [hsl]), if_pos htp]
  · have hlen : q.multipleTakeProfits.length > 0 := by
      cases hq : q.multipleTakeProfits with
      | nil => rw [hq] at hl; exact absurd hl (by simp [findLadderHit])
      | cons a b => simp [hq]
    obtain ⟨_, h2, h3, h4⟩ :=
      findLadderHit_sound q.side price q.takeProfitsHit q.multipleTakeProfits 0 idx tp hl
    refine ⟨?_, h2, by simpa using h3, h4⟩
    unfold checkExitTriggers
    rw [if_neg (by simp [hsl]), if_neg (by simp [htp]), if_pos hlen, hl]
  · constructor
    · unfold checkExitTriggers
      rw [if_neg (by simp [hsl]), if_neg (by simp [htp])]
      by_cases hlen : q.multipleTakeProfits.length > 0
      · rw [if_pos hlen, hl]
      · rw [if_neg hlen]
    · intro k tpk hk hout
      have := findLadderHit_none q.side price q.takeProfitsHit q.multipleTakeProfits 0 hl
        k tpk hk (by simpa using hout)
      exact this

/-- Concrete instantiation of the exit-trigger theorem on `wPosLadder`
(long from 100, stop 98, take-profit 120, rungs at 105 and 110 with rung 0
already hit): tick 97 hits the stop, tick 125 the take-profit, tick 111
fires rung 1 only, and tick 104 triggers nothing. -/
theorem exit_trigger_order_witness :
    checkExitTriggers wPosLadder 97 = (wPosLadder, ExitTrigger.stopLossHit) ∧
    checkExitTriggers wPosLadder 125 = (wPosLadder, ExitTrigger.takeProfitHit) ∧
    checkExitTriggers wPosLadder 111 =
      ({ wPosLadder with takeProfitsHit := wPosLadder.takeProfitsHit ++ [1] },
        ExitTrigger.partialTP 2 25) ∧
    checkExitTriggers wPosLadder 104 = (wPosLadder, ExitTrigger.noTrigger) :=
  ⟨(exit_trigger_order wPosLadder 97).2.1
      (by norm_num [wPosLadder, isStopLossHit]),
    (exit_trigger_order wPosLadder 125).2.2.1
      (by norm_num [wPosLadder, isStopLossHit])
      (by norm_num [wPosLadder, isTakeProfitHit]),
    ((exit_trigger_order wPosLadder 111).2.2.2.1
      (by norm_num [wPosLadder, isStopLossHit])
      (by norm_num [wPosLadder, isTakeProfitHit])
      1 ⟨25, 15/4, 110⟩
      (by norm_num [wPosLadder, findLadderHit, isTakeProfitHit])).1,
    ((exit_trigger_order wPosLadder 104).2.2.2.2.1
      (by norm_num [wPosLadder, isStopLossHit])
      (by norm_num [wPosLadder, isTakeProfitHit])
      (by norm_num [wPosLadder, findLadderHit, isTakeProfitHit])).1⟩

theorem scoreSignals_nonneg (signals : List WeightedSignal)
    (hw : ∀ ws ∈ signals, 0 ≤ ws.weight) :
    0 ≤ (scoreSignals signals).1 ∧ 0 ≤ (scoreSignals signals).2 := by
  unfold scoreSignals
  suffices h : ∀ init : ℚ × ℚ, 0 ≤ init.1 → 0 ≤ init.2 →
      0 ≤ (signals.foldl
        (fun acc s =>
          if s.signal = "buy" then (acc.1 + s.weight, acc.2)
          else if s.signal = "sell" then (acc.1, acc.2 + s.weight)
          else acc) init).1 ∧
      0 ≤ (signals.foldl
        (fun acc s =>
          if s.signal = "buy" then (acc.1 + s.weight, acc.2)
          else if s.signal = "sell" then (acc.1, acc.2 + s.weight)
          else acc) init).2 by
    exact h (0, 0) le_rfl le_rfl
  induction signals with
  | nil => intro init h1 h2; exact ⟨h1, h2⟩
  | cons ws rest ih =>
    intro init h1 h2
    have hws := hw ws (List.mem_cons_self ws rest)
    have hrest : ∀ w ∈ rest, 0 ≤ w.weight := fun w hw' => hw w (List.mem_cons_of_mem ws hw')
    simp only [List.foldl_cons]
    -- the first step preserves nonnegativity of both components
    have step : ∀ acc : ℚ × ℚ, 0 ≤ acc.1 → 0 ≤ acc.2 →
        0 ≤ (if ws.signal = "buy" then (acc.1 + ws.weight, acc.2)
          else if ws.signal = "sell" then (acc.1, acc.2 + ws.weight) else acc).1 ∧
        0 ≤ (if ws.signal = "buy" then (acc.1 + ws.weight, acc.2)
          else if ws.signal = "sell" then (acc.1, acc.2 + ws.weight) else acc).2 := by
      intro acc ha1 ha2
      split
      · exact ⟨add_nonneg ha1 hws, ha2⟩
      · split
        · exact ⟨ha1, add_nonneg ha2 hws⟩
        · exact ⟨ha1, ha2⟩
    obtain ⟨s1, s2⟩ := step init h1 h2
    exact ih hrest _ s1 s2

/-- C4: the Signal Composer's final decision (the block `composeSignal`
runs on every window of length ≥ 100, operating on the buy/sell
accumulators, which are sums of the nonnegative pushed weights): both
accumulators zero → 'hold' with confidence 0; equal and non-zero (tie) →
'hold' with confidence 0; otherwise the strictly higher accumulator wins
and the reported confidence is the winner divided by the sum, scaled to
0-100 (with JavaScript rounding). -/
theorem composer_final_decision (b s : ℚ) (hb : 0 ≤ b) (hs : 0 ≤ s) :
    (b = 0 ∧ s = 0 → composeDecision b s = ("hold", 0) ∧
      composeConfidencePct b s = 0) ∧
    (b = s → composeDecision b s = ("hold", 0) ∧ composeConfidencePct b s = 0) ∧
    (b > s → composeDecision b s = ("buy", b / (b + s)) ∧
      composeConfidencePct b s = jsRound (b / (b + s) * 100)) ∧
    (s > b → composeDecision b s = ("sell", s / (b + s)) ∧
      composeConfidencePct b s = jsRound (s / (b + s) * 100)) ∧
    (∀ signals : List WeightedSignal, (∀ ws ∈ signals, 0 ≤ ws.weight) →
      0 ≤ (scoreSignals signals).1 ∧ 0 ≤ (scoreSignals signals).2) := by
  refine ⟨fun ⟨h1, h2⟩ => ?_, fun h => ?_, fun h => ?_, fun h => ?_,
    fun signals hw => scoreSignals_nonneg signals hw⟩
  · subst h1; subst h2
    constructor
    · unfold composeDecision
      norm_num
    · unfold composeConfidencePct composeDecision jsRound
      norm_num
  · subst h
    by_cases h0 : b + b = 0
    · constructor
      · unfold composeDecision
        rw [if_pos h0]
      · unfold composeConfidencePct composeDecision jsRound
        rw [if_pos h0]
        norm_num
    · constructor
      · unfold composeDecision
        rw [if_neg h0, if_neg (lt_irrefl b), if_neg (lt_irrefl b)]
      · unfold composeConfidencePct composeDecision jsRound
        rw [if_neg h0, if_neg (lt_irrefl b), if_neg (lt_irrefl b)]
        norm_num
  · have htot : b + s ≠ 0 := ne_of_gt (by linarith)
    constructor
    · unfold composeDecision
      rw [if_neg htot, if_pos h]
    · unfold composeConfidencePct composeDecision
      rw [if_neg htot, if_pos h]
  · have htot : b + s ≠ 0 := ne_of_gt (by linarith)
    constructor
    · unfold composeDecision
      rw [if_neg htot, if_neg (not_lt.mpr (le_of_lt h)), if_pos h]
    · unfold composeConfidencePct composeDecision
      rw [if_neg htot, if_neg (not_lt.mpr (le_of_lt h)), if_pos h]

/-- Concrete instantiation of the composer decision theorem: accumulators
9/5 vs 9/10 give a buy with confidence round(200/3) = 67. -/
theorem composer_final_decision_witness :
    composeDecision (9/5) (9/10) = ("buy", 2/3) ∧
    composeConfidencePct (9/5) (9/10) = 67 := by
  obtain ⟨-, -, h3, -, -⟩ :=
    composer_final_decision (9/5) (9/10) (by norm_num) (by norm_num)
  obtain ⟨hd, hp⟩ := h3 (by norm_num)
  constructor
  · rw [hd]; norm_num
  · rw [hp]; unfold jsRound
    norm_num

theorem seed_gains_foldl (cs : List ℚ) :
    ∀ init : ℚ, cs.foldl (fun g c => if c > 0 then g + c else g) init =
      init + gainsOf cs := by
  induction cs with
  | nil => intro init; simp [gainsOf]
  | cons c rest ih =>
    intro init
    simp only [List.foldl_cons]
    rw [ih]
    unfold gainsOf gainOf
    simp only [List.map_cons, List.sum_cons]
    by_cases h : c > 0
    · rw [if_pos h, if_pos h]; ring
    · rw [if_neg h, if_neg h]; ring

theorem seed_losses_foldl (cs : List ℚ) :
    ∀ init : ℚ, cs.foldl (fun l c => if c > 0 then l else l + |c|) init =
      init + lossesOf cs := by
  induction cs with
  | nil => intro init; simp [lossesOf]
  | cons c rest ih =>
    intro init
    simp only [List.foldl_cons]
    rw [ih]
    unfold lossesOf
    simp only [List.map_cons, List.sum_cons]
    by_cases h : c > 0
    · rw [if_pos h, if_pos h]; ring
    · rw [if_neg h, if_neg h]; ring

theorem rsiFrom_zipWith (period : ℕ) (cs : List ℚ) :
    ∀ g l : ℚ, rsiFrom period g l cs =
      List.zipWith rsiValue (smoothSeq period g (cs.map gainOf))
        (smoothSeq period l (cs.map lossOf)) := by
  induction cs with
  | nil => intro g l; rfl
  | cons c rest ih =>
    intro g l
    simp only [rsiFrom, List.map_cons, smoothSeq, List.zipWith_cons_cons]
    rw [ih]
    rfl

theorem rsiValue_zero_loss (avgGain : ℚ) : rsiValue avgGain 0 = 10000 / 101 := by
  unfold rsiValue
  rw [if_pos rfl]
  norm_num

/-- C6 counterexample: on closes [1, 2, 3] with period 2 the seed average
loss is 0, yet the RSI value returned at index 2 is 10000/101 ≈ 99.0099,
not 100 — the zero-loss branch substitutes RS = 100, so
RSI = 100 − 100/(1+100). -/
theorem rsi_zero_loss_counterexample :
    lossesOf ((priceChanges [1, 2, 3]).take 2) = 0 ∧
    (rsi [1, 2, 3] 2)[2]? = some (some (10000 / 101)) ∧
    (10000 : ℚ) / 101 ≠ 100 := by
  refine ⟨by norm_num [priceChanges, lossesOf], ?_, by norm_num⟩
  norm_num [rsi, priceChanges, rsiFrom, rsiValue]

/-- C6 (amended): the RSI seeds the average gain and loss over the first
`period` price changes (the seeding fold equals the sum of the gains,
respectively losses, of those changes divided by the period), smooths each
by `(avg·(period−1)+new)/period` (the streaming loop equals zipping
`rsiValue` over the two Wilder-smoothed sequences), and at any index at
which the smoothed average loss is 0 the returned value is
100 − 100/(1+100) = 10000/101 ≈ 99.0099 (the code sets RS = 100 there),
not 100. -/
theorem rsi_wilder_smoothing (period : ℕ) (closes : List ℚ) (g l : ℚ) (cs : List ℚ)
    (_hp : 0 < period) (hlen : period + 1 ≤ closes.length) :
    (∀ avgGain avgLoss : ℚ, avgLoss = 0 → rsiValue avgGain avgLoss = 10000 / 101) ∧
    (rsiFrom period g l cs =
      List.zipWith rsiValue (smoothSeq period g (cs.map gainOf))
        (smoothSeq period l (cs.map lossOf))) ∧
    (rsi closes period =
      List.replicate period none ++
        (rsiValue (gainsOf ((priceChanges closes).take period) / (period : ℚ))
            (lossesOf ((priceChanges closes).take period) / (period : ℚ)) ::
          rsiFrom period
            (gainsOf ((priceChanges closes).take period) / (period : ℚ))
            (lossesOf ((priceChanges closes).take period) / (period : ℚ))
            ((priceChanges closes).drop period)).map some) := by
  refine ⟨fun ag al h => h ▸ rsiValue_zero_loss ag, rsiFrom_zipWith period cs g l, ?_⟩
  unfold rsi
  rw [if_neg (not_lt.mpr hlen)]
  simp only [seed_gains_foldl, seed_losses_foldl, zero_add]

/-- Concrete instantiation of the amended RSI theorem with period 2 on
closes [1, 2, 3], and the corrected zero-loss value at average gain 5. -/
theorem rsi_wilder_smoothing_witness :
    0 < 2 ∧ 2 + 1 ≤ ([1, 2, 3] : List ℚ).length ∧
    rsiValue 5 0 = 10000 / 101 :=
  ⟨by norm_num, by norm_num,
    (rsi_wilder_smoothing 2 [1, 2, 3] 0 0 [] (by norm_num) (by norm_num)).1 5 0 rfl⟩

/-- C5: `validatePortfolioLimits` (a pure function — it mutates no state, so
a rejection precedes any state change) rejects with ok = false and a reason
string carrying the exact computed post-trade percentage and the configured
cap percentage whenever the post-trade total exposure exceeds the total cap
or, failing that, the post-trade per-symbol exposure exceeds the per-symbol
cap; an entry whose post-trade exposures are at or below both caps is
accepted with ok = true. -/
theorem exposure_limit_validation (limits : PortfolioLimits) (symbol : String)
    (amount portfolioValue : ℚ) (trades : List OpenTrade)
    (_hpv : 0 < portfolioValue) :
    ((round2 (sumOpenAmounts trades) + amount) / portfolioValue >
        limits.maxTotalExposure →
      validatePortfolioLimits limits symbol amount trades portfolioValue =
        { ok := false
          reason := some ("Would exceed max total exposure (" ++
            ratToFixed 1 ((round2 (sumOpenAmounts trades) + amount) /
              portfolioValue * 100) ++ "% > " ++
            jsNumStr (limits.maxTotalExposure * 100) ++ "%)") }) ∧
    ((round2 (sumOpenAmounts trades) + amount) / portfolioValue ≤
        limits.maxTotalExposure →
      (symbolExposure symbol trades + amount) / portfolioValue >
        limits.maxExposurePerSymbol →
      validatePortfolioLimits limits symbol amount trades portfolioValue =
        { ok := false
          reason := some ("Would exceed max exposure for " ++ symbol ++ " (" ++
            ratToFixed 1 ((symbolExposure symbol trades + amount) /
              portfolioValue * 100) ++ "% > " ++
            jsNumStr (limits.maxExposurePerSymbol * 100) ++ "%)") }) ∧
    ((round2 (sumOpenAmounts trades) + amount) / portfolioValue ≤
        limits.maxTotalExposure →
      (symbolExposure symbol trades + amount) / portfolioValue ≤
        limits.maxExposurePerSymbol →
      validatePortfolioLimits limits symbol amount trades portfolioValue =
        { ok := true, reason := none }) := by
  refine ⟨fun h1 => ?_, fun h1 h2 => ?_, fun h1 h2 => ?_⟩
  · unfold validatePortfolioLimits
    rw [if_pos h1]
  · unfold validatePortfolioLimits
    rw [if_neg (not_lt.mpr h1), if_pos h2]
  · unfold validatePortfolioLimits
    rw [if_neg (not_lt.mpr h1), if_neg (not_lt.mpr h2)]

/-- Concrete instantiation of the exposure-limit theorem against 5000
already open (3000 on A, 2000 on B) of a 10000 portfolio with the default
caps: adding 3000 would push the total to 80% > 75% (rejected with those
exact percentages), adding 2000 on A would push A to 50% > 25% (rejected),
and adding 400 on B stays within both caps (accepted). -/
theorem exposure_limit_validation_witness :
    validatePortfolioLimits portfolioLimitsDefault "A" 3000 wTrades 10000 =
      { ok := false
        reason := some "Would exceed max total exposure (80.0% > 75%)" } ∧
    validatePortfolioLimits portfolioLimitsDefault "A" 2000 wTrades 10000 =
      { ok := false
        reason := some "Would exceed max exposure for A (50.0% > 25%)" } ∧
    validatePortfolioLimits portfolioLimitsDefault "B" 400 wTrades 10000 =
      { ok := true, reason := none } := by
  have hsum : sumOpenAmounts wTrades = 5000 := by
    norm_num [sumOpenAmounts, wTrades]
  have hBA : ("B" : String) ≠ "A" := by decide
  have hAB : ("A" : String) ≠ "B" := by decide
  have hsymA : symbolExposure "A" wTrades = 3000 := by
    norm_num [symbolExposure, wTrades, hBA]
  have hsymB : symbolExposure "B" wTrades = 2000 := by
    norm_num [symbolExposure, wTrades, hAB]
  have hr2 : round2 (5000 : ℚ) = 5000 := by
    norm_num [round2]
  refine ⟨?_, ?_, ?_⟩
  · have h := (exposure_limit_validation portfolioLimitsDefault "A" 3000 10000 wTrades
      (by norm_num)).1
      (by rw [hsum, hr2]; norm_num [portfolioLimitsDefault])
    rw [h, hsum, hr2]
    rw [show ((5000 : ℚ) + 3000) / 10000 * 100 = 80 by norm_num]
    rw [show portfolioLimitsDefault.maxTotalExposure * 100 = (75 : ℚ) by
      norm_num [portfolioLimitsDefault]]
    rw [show ratToFixed 1 80 = "80.0" from by
      unfold ratToFixed
      rw [if_neg (by norm_num : ¬(80 : ℚ) < 0)]
      rw [show (⌊|(80 : ℚ)| * ((10 : ℚ) ^ (1 : ℕ)) + 1/2⌋).toNat = 800 from by
        rw [show (⌊|(80 : ℚ)| * ((10 : ℚ) ^ (1 : ℕ)) + 1/2⌋ : ℤ) = 800 by norm_num]
        rfl]
      rfl]
    rw [show jsNumStr 75 = "75" from by unfold jsNumStr; rfl]
    rfl
  · have h := (exposure_limit_validation portfolioLimitsDefault "A" 2000 10000 wTrades
      (by norm_num)).2.1
      (by rw [hsum, hr2]; norm_num [portfolioLimitsDefault])
      (by rw [hsymA]; norm_num [portfolioLimitsDefault])
    rw [h, hsymA]
    rw [show ((3000 : ℚ) + 2000) / 10000 * 100 = 50 by norm_num]
    rw [show portfolioLimitsDefault.maxExposurePerSymbol * 100 = (25 : ℚ) by
      norm_num [portfolioLimitsDefault]]
    rw [show ratToFixed 1 50 = "50.0" from by
      unfold ratToFixed
      rw [if_neg (by norm_num : ¬(50 : ℚ) < 0)]
      rw [show (⌊|(50 : ℚ)| * ((10 : ℚ) ^ (1 : ℕ)) + 1/2⌋).toNat = 500 from by
        rw [show (⌊|(50 : ℚ)| * ((10 : ℚ) ^ (1 : ℕ)) + 1/2⌋ : ℤ) = 500 by norm_num]
        rfl]
      rfl]
    rw [show jsNumStr 25 = "25" from by unfold jsNumStr; rfl]
    rfl
  · exact (exposure_limit_validation portfolioLimitsDefault "B" 400 10000 wTrades
      (by norm_num)).2.2
      (by rw [hsum, hr2]; norm_num [portfolioLimitsDefault])
      (by rw [hsymB]; norm_num [portfolioLimitsDefault])

theorem kelly_formula_eq (w a l pv kf : ℚ) (h : ¬(w = 0 ∨ a = 0 ∨ l = 0)) :
    calculateKellyPositionSize w a l pv kf =
      { kellyPercent := round2 (kellyClampedFraction w a l kf * 100)
        positionSize := round2 (pv * kellyClampedFraction w a l kf)
        message := none
        recommendation := some (if pv * kellyClampedFraction w a l kf > 0 then
            "Optimal position size: $" ++
              ratToFixed 2 (pv * kellyClampedFraction w a l kf) ++ " (" ++
              ratToFixed 1 (kellyClampedFraction w a l kf * 100) ++
              "% of portfolio)"
          else "Current strategy not profitable - avoid trading") } := by
  unfold calculateKellyPositionSize kellyClampedFraction
  rw [if_neg h]

theorem kelly_clamp_bounds (w a l kf : ℚ) :
    0 ≤ kellyClampedFraction w a l kf ∧ kellyClampedFraction w a l kf ≤ 1 / 2 :=
  ⟨le_max_left 0 _, max_le (by norm_num) (min_le_right _ _)⟩

/-- C9: `calculateKellyPositionSize` computes the Kelly fraction
`(p·b − q)/b` with `p = winRate/100`, `q = 1 − p`, `b = avgWin/|avgLoss|`,
scales it by the safety fraction and clamps it to [0, 0.5] (so the position
never exceeds half the portfolio); a zero `winRate`, `avgWin` or `avgLoss`
returns a zero position with the insufficient-data message; and for
winRate 60, avgWin 150, avgLoss 100, portfolio 10000, fraction 0.25 the
returned position size 833.33 lies in [0, 5000] with the positive
'Optimal position size' recommendation. -/
theorem kelly_position_size (w a l pv kf : ℚ) :
    (0 ≤ kellyClampedFraction w a l kf ∧ kellyClampedFraction w a l kf ≤ 1 / 2) ∧
    (0 ≤ pv → 0 ≤ pv * kellyClampedFraction w a l kf ∧
      pv * kellyClampedFraction w a l kf ≤ pv / 2) ∧
    (w = 0 ∨ a = 0 ∨ l = 0 →
      calculateKellyPositionSize w a l pv kf =
        { kellyPercent := 0, positionSize := 0
          message := some "Insufficient data for Kelly calculation"
          recommendation := none }) ∧
    (¬(w = 0 ∨ a = 0 ∨ l = 0) →
      calculateKellyPositionSize w a l pv kf =
        { kellyPercent := round2 (kellyClampedFraction w a l kf * 100)
          positionSize := round2 (pv * kellyClampedFraction w a l kf)
          message := none
          recommendation := some (if pv * kellyClampedFraction w a l kf > 0 then
              "Optimal position size: $" ++
                ratToFixed 2 (pv * kellyClampedFraction w a l kf) ++ " (" ++
                ratToFixed 1 (kellyClampedFraction w a l kf * 100) ++
                "% of portfolio)"
            else "Current strategy not profitable - avoid trading") }) ∧
    (calculateKellyPositionSize 60 150 100 10000 (1/4)).positionSize = 83333 / 100 ∧
    0 ≤ (calculateKellyPositionSize 60 150 100 10000 (1/4)).positionSize ∧
    (calculateKellyPositionSize 60 150 100 10000 (1/4)).positionSize ≤ 5000 ∧
    (calculateKellyPositionSize 60 150 100 10000 (1/4)).recommendation =
      some "Optimal position size: $833.33 (8.3% of portfolio)" := by
  have hkcf : kellyClampedFraction 60 150 100 (1/4) = 1/12 := by
    unfold kellyClampedFraction
    norm_num [min_def, max_def]
  have hconc := kelly_formula_eq 60 150 100 10000 (1/4) (by norm_num)
  rw [hkcf] at hconc
  have hps : (calculateKellyPositionSize 60 150 100 10000 (1/4)).positionSize =
      83333 / 100 := by
    rw [hconc]
    show round2 (10000 * (1/12)) = 83333 / 100
    norm_num [round2]
  refine ⟨kelly_clamp_bounds w a l kf, fun hpv => ?_, fun h => ?_, fun h => ?_,
    hps, by rw [hps]; norm_num, by rw [hps]; norm_num, ?_⟩
  · obtain ⟨h0, h12⟩ := kelly_clamp_bounds w a l kf
    refine ⟨mul_nonneg hpv h0, ?_⟩
    calc pv * kellyClampedFraction w a l kf ≤ pv * (1/2) :=
          mul_le_mul_of_nonneg_left h12 hpv
      _ = pv / 2 := by ring
  · unfold calculateKellyPositionSize
    rw [if_pos h]
  · exact kelly_formula_eq w a l pv kf h
  · rw [hconc]
    show some (if (10000 : ℚ) * (1/12) > 0 then _ else _) = _
    rw [if_pos (by norm_num : (10000 : ℚ) * (1/12) > 0)]
    rw [show (10000 : ℚ) * (1/12) = 2500/3 by norm_num]
    rw [show ((1 : ℚ)/12) * 100 = 25/3 by norm_num]
    rw [show ratToFixed 2 (2500/3 : ℚ) = "833.33" from by
      unfold ratToFixed
      rw [if_neg (by norm_num : ¬(2500/3 : ℚ) < 0)]
      rw [show (⌊|(2500/3 : ℚ)| * ((10 : ℚ) ^ (2 : ℕ)) + 1/2⌋).toNat = 83333 from by
        rw [show (⌊|(2500/3 : ℚ)| * ((10 : ℚ) ^ (2 : ℕ)) + 1/2⌋ : ℤ) = 83333 from by
          rw [show |(2500/3 : ℚ)| = 2500/3 from abs_of_nonneg (by norm_num)]
          norm_num]
        rfl]
      rfl]
    rw [show ratToFixed 1 (25/3 : ℚ) = "8.3" from by
      unfold ratToFixed
      rw [if_neg (by norm_num : ¬(25/3 : ℚ) < 0)]
      rw [show (⌊|(25/3 : ℚ)| * ((10 : ℚ) ^ (1 : ℕ)) + 1/2⌋).toNat = 83 from by
        rw [show (⌊|(25/3 : ℚ)| * ((10 : ℚ) ^ (1 : ℕ)) + 1/2⌋ : ℤ) = 83 from by
          rw [show |(25/3 : ℚ)| = 25/3 from abs_of_nonneg (by norm_num)]
          norm_num]
        rfl]
      rfl]
    rfl

/-- Concrete instantiation of the Kelly theorem: zero win rate returns the
insufficient-data result, and a 10000 portfolio yields a nonnegative
position bounded by half the portfolio. -/
theorem kelly_position_size_witness :
    calculateKellyPositionSize 0 150 100 10000 (1/4) =
      { kellyPercent := 0, positionSize := 0
        message := some "Insufficient data for Kelly calculation"
        recommendation := none } ∧
    0 ≤ (10000 : ℚ) * kellyClampedFraction 60 150 100 (1/4) ∧
    (10000 : ℚ) * kellyClampedFraction 60 150 100 (1/4) ≤ 10000 / 2 :=
  ⟨(kelly_position_size 0 150 100 10000 (1/4)).2.2.1 (Or.inl rfl),
    ((kelly_position_size 60 150 100 10000 (1/4)).2.1 (by norm_num)).1,
    ((kelly_position_size 60 150 100 10000 (1/4)).2.1 (by norm_num)).2⟩

/-- C7: for every candle window shorter than 100, the Signal Composer, the
Market Regime Classifier and the strategy-selection entry point each return
their neutral/hold result with confidence 0, whatever their long-window
path computes (the embedded functions are total, so no input throws). -/
theorem short_window_neutral (mainC : List Candle → ComposeOut)
    (mainR : List Candle → RegimeOut) (mainS : List Candle → StrategyOut)
    (candles : List Candle) (h : candles.length < 100) :
    composeSignalG mainC candles =
      { signal := "hold", confidence := 0
        reason := "Insufficient data for analysis" } ∧
    detectMarketRegimeG mainR candles =
      { regime := "choppy", confidence := 0
        reason := "Insufficient data for regime detection"
        recommendedStrategy := "hold" } ∧
    analyzeWithOptimalStrategyG mainS candles =
      { signal := "hold", confidence := 0
        reason := "Insufficient data for strategy analysis"
        strategy := "none" } :=
  ⟨by unfold composeSignalG; rw [if_pos h],
    by unfold detectMarketRegimeG; rw [if_pos h],
    by unfold analyzeWithOptimalStrategyG; rw [if_pos h]⟩

/-- Concrete instantiation of the short-window theorem: the empty window
(length 0 < 100) against long-window paths that would report a
99-confidence buy, a trending regime, and a momentum signal. -/
theorem short_window_neutral_witness :
    composeSignalG (fun _ => { signal := "buy", confidence := 99, reason := "x" }) [] =
      { signal := "hold", confidence := 0
        reason := "Insufficient data for analysis" } ∧
    detectMarketRegimeG (fun _ =>
        { regime := "trending-up", confidence := 99, reason := "x"
          recommendedStrategy := "momentum" }) [] =
      { regime := "choppy", confidence := 0
        reason := "Insufficient data for regime detection"
        recommendedStrategy := "hold" } ∧
    analyzeWithOptimalStrategyG (fun _ =>
        { signal := "buy", confidence := 99, reason := "x"
          strategy := "momentum" }) [] =
      { signal := "hold", confidence := 0
        reason := "Insufficient data for strategy analysis"
        strategy := "none" } :=
  short_window_neutral _ _ _ [] (by norm_num)

/-- C8: `runBacktest` is deterministic in its trading outputs.  The
embedded trading body is a pure function of the signal function, the
configuration and the candle data; the wall clock (`Date.now()`, modelled
as `now`) feeds only the `generatedAt` field.  Hence a run equals itself
byte for byte, and two runs over identical configuration and identical
candle data — even at different wall-clock times — return identical trade
lists, equity curves and final capital. -/
theorem backtest_deterministic (sig : List ℚ → String) (cfg : BTConfig)
    (candles : List Candle) (now now₁ now₂ : ℤ) :
    runBacktest sig cfg candles now = runBacktest sig cfg candles now ∧
    (∀ r₁ r₂ : BTRun, runBacktest sig cfg candles now₁ = .ok r₁ →
      runBacktest sig cfg candles now₂ = .ok r₂ →
      r₁.trades = r₂.trades ∧ r₁.equityCurve = r₂.equityCurve ∧
        r₁.finalCapital = r₂.finalCapital) := by
  refine ⟨rfl, fun r₁ r₂ h₁ h₂ => ?_⟩
  unfold runBacktest at h₁ h₂
  by_cases hA : cfg.positionSize > cfg.initialCapital
  · rw [if_pos hA] at h₁
    exact absurd h₁ (by simp)
  · rw [if_neg hA] at h₁ h₂
    by_cases hB : candles.length < 50
    · rw [if_pos hB] at h₁
      exact absurd h₁ (by simp)
    · rw [if_neg hB] at h₁ h₂
      injection h₁ with h₁
      injection h₂ with h₂
      rw [← h₁, ← h₂]
      exact ⟨rfl, rfl, rfl⟩

/-- Concrete instantiation of the backtest determinism theorem: the
momentum strategy over 50 flat candles, run at wall-clock times 5 and 7,
yields the same (empty) trade list; evaluating the run shows the exact
output. -/
theorem backtest_deterministic_witness :
    runBacktest getMomentumSignal wBTConfig (List.replicate 50 wCandle) 5 =
      .ok { trades := []
            equityCurve := [{ time := 0, capital := 10000, trades := 0 }]
            finalCapital := 10000
            generatedAt := 5 } ∧
    ({ trades := []
       equityCurve := [{ time := 0, capital := 10000, trades := 0 }]
       finalCapital := 10000
       generatedAt := 5 } : BTRun).trades =
      ({ trades := []
         equityCurve := [{ time := 0, capital := 10000, trades := 0 }]
         finalCapital := 10000
         generatedAt := 7 } : BTRun).trades := by
  have hcore : runBacktestCore getMomentumSignal wBTConfig (List.replicate 50 wCandle) =
      { trades := []
        capital := 10000
        position := none
        equityCurve := [{ time := 0, capital := 10000, trades := 0 }] } := rfl
  have hrun : ∀ n : ℤ,
      runBacktest getMomentumSignal wBTConfig (List.replicate 50 wCandle) n =
        .ok { trades := []
              equityCurve := [{ time := 0, capital := 10000, trades := 0 }]
              finalCapital := 10000
              generatedAt := n } := by
    intro n
    unfold runBacktest
    rw [if_neg (by norm_num [wBTConfig]), if_neg (by norm_num), hcore]
  exact ⟨hrun 5,
    ((backtest_deterministic getMomentumSignal wBTConfig (List.replicate 50 wCandle)
      0 5 7).2 _ _ (hrun 5) (hrun 7)).1⟩

end TrustTrade
